import Mathlib

set_option maxHeartbeats 1000000

/-!
Verification of the moltbook CLI (`moltbook.py`) against its specification.

The script decodes JSON API responses into dynamically-typed values and
renders them as text.  We embed the decoded JSON values as the inductive
type `Json`, Python dictionary access (`dict.get`), truthiness, and
`str()` conversion as Lean functions, and the rendering logic of each command
as a pure function from the decoded response to the list of lines it
echoes.  External library calls that are not part of the repository
(`datetime.fromisoformat`, `json.dumps`, the clock) enter as explicit
function parameters.
-/

/-- Decoded JSON values.  Numbers are modelled as integers: every numeric
field of the data model (vote counts, comment_count, karma, follower
counts, member_count, retry_after_minutes) is integral. -/
inductive Json where
  | null
  | bool (b : Bool)
  | num (n : Int)
  | str (s : String)
  | arr (elems : List Json)
  | obj (fields : List (String × Json))

/-- Key lookup in the field list of a decoded JSON object (Python dicts have
unique keys, so first-match lookup is exact). -/
def lookupField : List (String × Json) → String → Option Json
  | [], _ => none
  | (k, v) :: rest, key => if k = key then some v else lookupField rest key

/-- Python `d.get(key)` (returning `None` for a missing key is modelled by
`none`).  All receivers of `.get` in the script are mappings per the data
model; a non-mapping receiver would raise `AttributeError` in Python and is
modelled as a missing key. -/
def pyGet (j : Json) (key : String) : Option Json :=
  match j with
  | Json.obj fields => lookupField fields key
  | _ => none

/-- Python `d.get(key, default)`: the default applies only when the key is
absent, not when it is present with value `null`. -/
def pyGetD (j : Json) (key : String) (dflt : Json) : Json :=
  match pyGet j key with
  | some v => v
  | none => dflt

/-- Python truthiness of a decoded JSON value: `None`, `False`, `0`, `""`,
`[]` and the empty dict are falsy, everything else truthy. -/
def truthy : Json → Bool
  | Json.null => false
  | Json.bool b => b
  | Json.num n => n != 0
  | Json.str s => s != ""
  | Json.arr elems => !elems.isEmpty
  | Json.obj fields => !fields.isEmpty

/-- Python `a or b` on decoded JSON values. -/
def pyOr (a b : Json) : Json :=
  if truthy a then a else b

mutual
/-- Python `repr` of a decoded JSON value, used by `str` on containers.
Escape sequences inside the repr of strings are elided; no rendered field
in the script is a container, so only the scalar cases are exercised. -/
def pyRepr : Json → String
  | Json.null => "None"
  | Json.bool true => "True"
  | Json.bool false => "False"
  | Json.num n => toString n
  | Json.str s => "\x27" ++ s ++ "\x27"
  | Json.arr elems => "[" ++ pyReprList elems ++ "]"
  | Json.obj fields => "\x7b" ++ pyReprFields fields ++ "\x7d"

def pyReprList : List Json → String
  | [] => ""
  | [x] => pyRepr x
  | x :: rest => pyRepr x ++ ", " ++ pyReprList rest

def pyReprFields : List (String × Json) → String
  | [] => ""
  | [(k, v)] => "\x27" ++ k ++ "\x27: " ++ pyRepr v
  | (k, v) :: rest => "\x27" ++ k ++ "\x27: " ++ pyRepr v ++ ", " ++ pyReprFields rest
end

/-- Python `str()` of a decoded JSON value, as interpolated by f-strings:
a string is taken verbatim, anything else via its repr. -/
def pyStr : Json → String
  | Json.str s => s
  | j => pyRepr j

/-- Python `f"{votes:+d}"`: an integer rendered with an explicit sign. -/
def plusFmt (n : Int) : String :=
  if 0 ≤ n then "+" ++ toString n else toString n

/-- A vote-count field as an integer (integral per the data model). -/
def asInt : Json → Int
  | Json.num n => n
  | _ => 0

/-- The element list of a JSON array (iteration target; every iterated
value in the script is an array per the data model). -/
def asArr : Json → List Json
  | Json.arr elems => elems
  | _ => []

/-- A `created_at` field as the string-or-null argument of `format_time`
(the field is an ISO-8601 string or absent per the data model). -/
def asCreatedAt : Option Json → Option String
  | some (Json.str s) => some s
  | _ => none

/-- Python `s * n` for strings: `n` concatenated copies of `s`. -/
def strMul (s : String) : Nat → String
  | 0 => ""
  | n + 1 => s ++ strMul s n

/-- `format_time` (moltbook.py lines 71-90).  The external calls are
explicit parameters: `fromiso` stands for `datetime.fromisoformat`
(returning the timestamp in seconds, or `none` on a `ValueError`), and
`now` for the current time in seconds in the parsed timezone.  The
`timedelta` attributes are modelled by the floor conventions of Python:
`diff.days` is the floor quotient by 86400 and `diff.seconds` the
nonnegative remainder. -/
def format_time (fromiso : String → Option Int) (now : Int) : Option String → String
  | none => "unknown"
  | some s =>
    if s = "" then "unknown"
    else
      match fromiso (s.replace "Z" "+00:00") with
      | none => s
      | some dt =>
        let days : Int := Int.fdiv (now - dt) 86400
        if 0 < days then toString days ++ "d ago"
        else
          let hours : Int := Int.fmod (now - dt) 86400 / 3600
          if 0 < hours then toString hours ++ "h ago"
          else
            let minutes : Int := Int.fmod (now - dt) 86400 / 60
            if 0 < minutes then toString minutes ++ "m ago"
            else "just now"

/-- `handle_error` (moltbook.py lines 93-105), as the pair of the lines it
echoes to standard error and the exit code passed to `sys.exit` (or `none`
when it returns normally).  The guard `data.get("success") is False` is an
identity test against the `False` singleton, so only a JSON `false`
triggers it. -/
def handle_error (data : Json) : List String × Option Nat :=
  match pyGet data "success" with
  | some (Json.bool false) =>
    let error := pyGetD data "error" (Json.str "Unknown error")
    let hint := pyGetD data "hint" (Json.str "")
    let retry := pyGetD data "retry_after_minutes" Json.null
    (["Error: " ++ pyStr error]
      ++ (if truthy hint then ["Hint: " ++ pyStr hint] else [])
      ++ (if truthy retry then ["Retry in: " ++ pyStr retry ++ " minutes"] else []),
     some 1)
  | _ => ([], none)

/-- Outcome of the status handling in `api_request`: either a fatal path
(one line to standard error, then `sys.exit` with the given code) or the
decoded body returned to the caller. -/
inductive ApiOutcome where
  | fatal (stderrLine : String) (exitCode : Nat)
  | body (data : Json)

/-- The HTTP-status handling of `api_request` (moltbook.py lines 49-59):
404, 401 and 403 are fatal with fixed messages; any other status has its
decoded JSON body returned. -/
def api_request_status (status : Nat) (decoded : Json) : ApiOutcome :=
  if status = 404 then ApiOutcome.fatal "Error: Not found" 1
  else if status = 401 then ApiOutcome.fatal "Error: Authentication failed - check your API key" 1
  else if status = 403 then ApiOutcome.fatal "Error: Permission denied" 1
  else ApiOutcome.body decoded

/-- Author name of a post (moltbook.py lines 133-134 and 164-165):
`post.get("author", {}) or {}`, then `.get("username", "anonymous")`. -/
def author_name (p : Json) : String :=
  pyStr (pyGetD (pyOr (pyGetD p "author" (Json.obj [])) (Json.obj [])) "username" (Json.str "anonymous"))

/-- Submolt name of a post (moltbook.py lines 135-136):
`post.get("submolt", {}) or {}`, then `.get("name", "general")`. -/
def submolt_name (p : Json) : String :=
  pyStr (pyGetD (pyOr (pyGetD p "submolt" (Json.obj [])) (Json.obj [])) "name" (Json.str "general"))

/-- Author name of a comment (moltbook.py lines 187-188): comments key the
display name on `name`, not `username`. -/
def comment_author_name (c : Json) : String :=
  pyStr (pyGetD (pyOr (pyGetD c "author" (Json.obj [])) (Json.obj [])) "name" (Json.str "anonymous"))

/-- Score of a post or comment: `upvotes - downvotes` (moltbook.py lines
138 and 189). -/
def score (e : Json) : Int :=
  asInt (pyGetD e "upvotes" (Json.num 0)) - asInt (pyGetD e "downvotes" (Json.num 0))

theorem sizeOf_lookupField {fields : List (String × Json)} {key : String} {v : Json}
    (h : lookupField fields key = some v) : sizeOf v < sizeOf fields := by
  induction fields with
  | nil => simp [lookupField] at h
  | cons p rest ih =>
    obtain ⟨k, w⟩ := p
    by_cases hk : k = key
    · rw [lookupField, if_pos hk] at h
      cases h
      simp
      omega
    · rw [lookupField, if_neg hk] at h
      have := ih h
      simp
      omega

theorem sizeOf_pyGet {c : Json} {key : String} {v : Json}
    (h : pyGet c key = some v) : sizeOf v < sizeOf c := by
  cases c with
  | obj fields =>
    rw [pyGet] at h
    have := sizeOf_lookupField h
    simp
    omega
  | null => exact absurd h (by simp [pyGet])
  | bool b => exact absurd h (by simp [pyGet])
  | num n => exact absurd h (by simp [pyGet])
  | str s => exact absurd h (by simp [pyGet])
  | arr elems => exact absurd h (by simp [pyGet])

theorem sizeOf_json_pos (j : Json) : 1 ≤ sizeOf j := by
  cases j <;> first | (simp; omega) | simp

theorem sizeOf_asArr (j : Json) : sizeOf (asArr j) ≤ sizeOf j := by
  cases j <;> first | (simp [asArr]; omega) | simp [asArr]

theorem sizeOf_replies (c : Json) (key : String) :
    sizeOf (asArr (pyGetD c key (Json.arr []))) ≤ sizeOf c := by
  unfold pyGetD
  cases h : pyGet c key with
  | none =>
    simpa [asArr] using sizeOf_json_pos c
  | some v =>
    calc sizeOf (asArr v) ≤ sizeOf v := sizeOf_asArr v
      _ ≤ sizeOf c := le_of_lt (sizeOf_pyGet h)

/-- `print_comments` (moltbook.py lines 183-197): recursively renders a
comment list as echoed lines, indenting replies one level deeper. -/
def print_comments (ft : String → Option Int) (now : Int) :
    List Json → Nat → List String
  | [], _ => []
  | c :: rest, indent =>
    let pre := strMul "  " indent
    [pre ++ comment_author_name c ++ " (" ++ plusFmt (score c) ++ ") "
       ++ format_time ft now (asCreatedAt (pyGet c "created_at")),
     pre ++ "  " ++ pyStr (pyGetD c "content" (Json.str ""))]
    ++ (if truthy (pyGetD c "replies" (Json.arr [])) then
          print_comments ft now (asArr (pyGetD c "replies" (Json.arr []))) (indent + 1)
        else [])
    ++ print_comments ft now rest indent
termination_by cs _ => sizeOf cs
decreasing_by
  all_goals simp only [List.cons.sizeOf_spec]
  · have h1 := sizeOf_replies c "replies"
    omega
  · omega

/-- The rendering of the `feed` command (moltbook.py lines 119-145), as the
list of lines echoed to standard output.  `dumps` stands for
`json.dumps(-, indent=2)`; each echoed f-string beginning with a newline
keeps that newline at the start of its line. -/
def feed_render (dumps : Json → String) (ft : String → Option Int) (now : Int)
    (data : Json) (output_json : Bool) : List String :=
  if output_json then [dumps data]
  else
    let posts := pyGetD data "posts" (Json.arr [])
    if !truthy posts then ["No posts found"]
    else
      (asArr posts).flatMap (fun p =>
        ["\n" ++ pyStr (pyGetD p "title" (Json.str "Untitled")),
         "  " ++ plusFmt (score p) ++ " points | "
           ++ pyStr (pyGetD p "comment_count" (Json.num 0)) ++ " comments | "
           ++ format_time ft now (asCreatedAt (pyGet p "created_at")),
         "  by " ++ author_name p ++ " in " ++ submolt_name p,
         "  id: " ++ pyStr (pyGetD p "id" Json.null)])

/-- The rendering of the `post` command (moltbook.py lines 151-180). -/
def post_render (dumps : Json → String) (ft : String → Option Int) (now : Int)
    (data : Json) (output_json : Bool) : List String :=
  if output_json then [dumps data]
  else
    let p := pyGetD data "post" (Json.obj [])
    if !truthy p then ["Post not found"]
    else
      ["\n" ++ pyStr (pyGetD p "title" (Json.str "Untitled")),
       "by " ++ author_name p ++ " | " ++ plusFmt (score p) ++ " points | "
         ++ format_time ft now (asCreatedAt (pyGet p "created_at")),
       strMul "-" 40,
       pyStr (pyGetD p "content" (Json.str "")),
       strMul "-" 40]
      ++ (let comments := pyGetD data "comments" (Json.arr [])
          if truthy comments then
            ("\nComments (" ++ toString (asArr comments).length ++ "):")
              :: print_comments ft now (asArr comments) 0
          else ["\nNo comments yet"])

/-- The rendering of the `user` command (moltbook.py lines 257-277). -/
def user_render (dumps : Json → String) (ft : String → Option Int) (now : Int)
    (data : Json) (output_json : Bool) : List String :=
  if output_json then [dumps data]
  else
    let u := pyGetD data "user" (Json.obj [])
    if !truthy u then ["User not found"]
    else
      ["\n" ++ pyStr (pyGetD u "name" (pyGetD u "username" (Json.str "Unknown"))),
       "@" ++ pyStr (pyGetD u "username" (Json.str ""))]
      ++ (if truthy (pyGetD u "bio" Json.null)
          then ["\n" ++ pyStr (pyGetD u "bio" Json.null)] else [])
      ++ ["\nKarma: " ++ pyStr (pyGetD u "karma" (Json.num 0)),
          "Followers: " ++ pyStr (pyGetD u "follower_count" (Json.num 0)),
          "Following: " ++ pyStr (pyGetD u "following_count" (Json.num 0)),
          "Joined: " ++ format_time ft now (asCreatedAt (pyGet u "created_at"))]

/-- The subcommands registered on the `cli` group (moltbook.py lines
108-280): the decorated functions `feed`, `post`, `create`, `delete`,
`comment` and `user`, under their function names. -/
def cliCommands : List String :=
  ["feed", "post", "create", "delete", "comment", "user"]

/-- The option names of the `feed` command (moltbook.py lines 115-118). -/
def feed_option_names : List String := ["--sort", "--limit", "--json"]

/-- The option names of the `post` command (moltbook.py line 150). -/
def post_option_names : List String := ["--json"]

/-- The option names of the `create` command (moltbook.py lines 201-203). -/
def create_option_names : List String := ["--title", "--content", "--submolt"]

/-- The option names of the `delete` command (moltbook.py lines 224-226):
only the positional `post_id` argument, no options. -/
def delete_option_names : List String := []

/-- The option names of the `comment` command (moltbook.py lines 237-238). -/
def comment_option_names : List String := ["--content", "--reply-to"]

/-- The option names of the `user` command (moltbook.py line 256). -/
def user_option_names : List String := ["--json"]

/-- The `click.Choice` values of the `--sort` option of `feed`
(moltbook.py line 115). -/
def feed_sort_choices : List String := ["hot", "new", "top"]

/-- The default of `--sort` (moltbook.py line 115). -/
def feed_default_sort : String := "hot"

/-- The default of `--limit` (moltbook.py line 117). -/
def feed_default_limit : Int := 20

/-- The query parameters the `feed` command sends with `GET /posts`
(moltbook.py line 121). -/
def feed_params (sort : String) (limit : Int) : List (String × Json) :=
  [("sort", Json.str sort), ("limit", Json.num limit)]

theorem format_time_eval (fromiso : String → Option Int) (now dt : Int) (s : String)
    (hs : s ≠ "") (hp : fromiso (s.replace "Z" "+00:00") = some dt) :
    format_time fromiso now (some s) =
      (if 0 < (now - dt) / 86400 then toString ((now - dt) / 86400) ++ "d ago"
       else if 0 < (now - dt) % 86400 / 3600 then
         toString ((now - dt) % 86400 / 3600) ++ "h ago"
       else if 0 < (now - dt) % 86400 / 60 then
         toString ((now - dt) % 86400 / 60) ++ "m ago"
       else "just now") := by
  have hfd : Int.fdiv (now - dt) 86400 = (now - dt) / 86400 :=
    Int.fdiv_eq_ediv _ (by norm_num)
  have hfm : Int.fmod (now - dt) 86400 = (now - dt) % 86400 :=
    Int.fmod_eq_emod _ (by norm_num)
  simp only [format_time, if_neg hs, hp, hfd, hfm]

/-- C4: `format_time` returns "unknown" on null or empty input; returns
unparseable input verbatim without raising; otherwise returns the single
largest non-zero-unit bucket of the difference between now and the
timestamp (at least one day gives "Nd ago", else at least one hour of the
remaining intra-day seconds gives "Nh ago", else at least one minute gives
"Nm ago", else "just now"), never combining units: a 90-minute-old
timestamp gives "1h ago", a 45-second-old one "just now", a 3-day-old one
"3d ago". -/
theorem c4_format_time (fromiso : String → Option Int) (now dt : Int) (s : String) :
    format_time fromiso now none = "unknown"
    ∧ format_time fromiso now (some "") = "unknown"
    ∧ (s ≠ "" → fromiso (s.replace "Z" "+00:00") = none →
        format_time fromiso now (some s) = s)
    ∧ (s ≠ "" → fromiso (s.replace "Z" "+00:00") = some dt →
        ((86400 ≤ now - dt →
            format_time fromiso now (some s) = toString ((now - dt) / 86400) ++ "d ago")
         ∧ (3600 ≤ now - dt → now - dt < 86400 →
            format_time fromiso now (some s) = toString ((now - dt) / 3600) ++ "h ago")
         ∧ (60 ≤ now - dt → now - dt < 3600 →
            format_time fromiso now (some s) = toString ((now - dt) / 60) ++ "m ago")
         ∧ (0 ≤ now - dt → now - dt < 60 →
            format_time fromiso now (some s) = "just now")
         ∧ (now - dt = 5400 → format_time fromiso now (some s) = "1h ago")
         ∧ (now - dt = 45 → format_time fromiso now (some s) = "just now")
         ∧ (now - dt = 259200 → format_time fromiso now (some s) = "3d ago"))) := by
  refine ⟨rfl, rfl, ?_, ?_⟩
  · intro hs hp
    simp only [format_time, if_neg hs, hp]
  · intro hs hp
    have heval := format_time_eval fromiso now dt s hs hp
    refine ⟨?_, ?_, ?_, ?_, ?_, ?_, ?_⟩
    · intro h
      rw [heval, if_pos (by omega)]
    · intro h1 h2
      rw [heval, if_neg (by omega), if_pos (by omega),
        show (now - dt) % 86400 = now - dt by omega]
    · intro h1 h2
      rw [heval, if_neg (by omega), if_neg (by omega), if_pos (by omega),
        show (now - dt) % 86400 = now - dt by omega]
    · intro h1 h2
      rw [heval, if_neg (by omega), if_neg (by omega), if_neg (by omega)]
    · intro h
      rw [heval, h]
      norm_num
      rfl
    · intro h
      rw [heval, h]
      norm_num
    · intro h
      rw [heval, h]
      norm_num
      rfl

/-- Witness for C4: a 90-minute-old parseable timestamp renders as
"1h ago", and null input as "unknown". -/
theorem c4_format_time_witness :
    format_time (fun _ => some 0) 5400 (some "x") = "1h ago"
    ∧ format_time (fun _ => some 0) 5400 none = "unknown" := by
  refine ⟨?_, (c4_format_time (fun _ => some 0) 5400 0 "x").1⟩
  exact ((c4_format_time (fun _ => some 0) 5400 0 "x").2.2.2 (by decide) rfl).2.2.2.2.1
    (by norm_num)

/-- C6: `handle_error` exits with code 1, after printing the error message
and optionally the hint and retry_after_minutes to standard error, if and
only if the `success` field of the response is explicitly `false`; a response
without a `success` field is treated as success and produces no output and
no exit.  For the envelope with success false, error "E", hint "H" and
retry_after_minutes 5, it exits 1 and the standard-error lines carry E, H
and 5. -/
theorem c6_handle_error (data : Json) :
    ((handle_error data).2 = some 1 ↔ pyGet data "success" = some (Json.bool false))
    ∧ (pyGet data "success" = none → handle_error data = ([], none))
    ∧ handle_error (Json.obj [("success", Json.bool false), ("error", Json.str "E"),
        ("hint", Json.str "H"), ("retry_after_minutes", Json.num 5)])
      = (["Error: E", "Hint: H", "Retry in: 5 minutes"], some 1) := by
  refine ⟨?_, ?_, ?_⟩
  · constructor
    · intro h
      cases hs : pyGet data "success" with
      | none => rw [handle_error] at h; rw [hs] at h; simp at h
      | some v =>
        cases v with
        | bool b =>
          cases b with
          | false => rfl
          | true => rw [handle_error, hs] at h; simp at h
        | null => rw [handle_error, hs] at h; simp at h
        | num n => rw [handle_error, hs] at h; simp at h
        | str s => rw [handle_error, hs] at h; simp at h
        | arr elems => rw [handle_error, hs] at h; simp at h
        | obj fields => rw [handle_error, hs] at h; simp at h
    · intro h
      rw [handle_error, h]
  · intro h
    rw [handle_error, h]
  · rfl

/-- Witness for C6: a response without a `success` field produces no
output and no exit, and the concrete failure envelope of the claim exits 1. -/
theorem c6_handle_error_witness :
    handle_error (Json.obj [("posts", Json.arr [])]) = ([], none)
    ∧ (handle_error (Json.obj [("success", Json.bool false), ("error", Json.str "E"),
        ("hint", Json.str "H"), ("retry_after_minutes", Json.num 5)])).2 = some 1 := by
  constructor
  · exact (c6_handle_error (Json.obj [("posts", Json.arr [])])).2.1 rfl
  · rw [(c6_handle_error Json.null).2.2]

/-- C9: on a failure envelope, each optional line is decided by a
truthiness check, not a presence check, independently of the other: a
`hint` field that is the empty string omits the Hint line entirely
(whatever `retry_after_minutes` holds), and a `retry_after_minutes` field
that is 0 or null omits the Retry line entirely (whatever `hint` holds),
while the error message is still printed and the process exits with
code 1. -/
theorem c9_handle_error_truthiness (data : Json)
    (hsucc : pyGet data "success" = some (Json.bool false)) :
    (pyGet data "hint" = some (Json.str "") →
      handle_error data
        = (["Error: " ++ pyStr (pyGetD data "error" (Json.str "Unknown error"))]
            ++ (if truthy (pyGetD data "retry_after_minutes" Json.null) then
                  ["Retry in: "
                    ++ pyStr (pyGetD data "retry_after_minutes" Json.null) ++ " minutes"]
                else []),
           some 1))
    ∧ ((pyGet data "retry_after_minutes" = some (Json.num 0)
        ∨ pyGet data "retry_after_minutes" = some Json.null) →
      handle_error data
        = (["Error: " ++ pyStr (pyGetD data "error" (Json.str "Unknown error"))]
            ++ (if truthy (pyGetD data "hint" (Json.str "")) then
                  ["Hint: " ++ pyStr (pyGetD data "hint" (Json.str ""))]
                else []),
           some 1)) := by
  constructor
  · intro hhint
    have h1 : truthy (pyGetD data "hint" (Json.str "")) = false := by
      rw [pyGetD, hhint]
      rfl
    rw [handle_error, hsucc]
    simp [h1]
  · intro hretry
    have h2 : truthy (pyGetD data "retry_after_minutes" Json.null) = false := by
      cases hretry with
      | inl h => rw [pyGetD, h]; rfl
      | inr h => rw [pyGetD, h]; rfl
    rw [handle_error, hsucc]
    simp [h2]

/-- Witness for C9 at mixed concrete envelopes: an empty hint omits only
the Hint line even when retry_after_minutes is 27, and a zero
retry_after_minutes omits only the Retry line even when a hint is
present. -/
theorem c9_handle_error_truthiness_witness :
    handle_error (Json.obj [("success", Json.bool false), ("error", Json.str "E"),
        ("hint", Json.str ""), ("retry_after_minutes", Json.num 27)])
      = (["Error: E", "Retry in: 27 minutes"], some 1)
    ∧ handle_error (Json.obj [("success", Json.bool false), ("error", Json.str "E"),
        ("hint", Json.str "H"), ("retry_after_minutes", Json.num 0)])
      = (["Error: E", "Hint: H"], some 1) := by
  constructor
  · have h := (c9_handle_error_truthiness
      (Json.obj [("success", Json.bool false), ("error", Json.str "E"),
        ("hint", Json.str ""), ("retry_after_minutes", Json.num 27)]) rfl).1 rfl
    simpa [pyGetD, pyGet, lookupField, truthy, pyStr] using h
  · have h := (c9_handle_error_truthiness
      (Json.obj [("success", Json.bool false), ("error", Json.str "E"),
        ("hint", Json.str "H"), ("retry_after_minutes", Json.num 0)]) rfl).2 (Or.inl rfl)
    simpa [pyGetD, pyGet, lookupField, truthy, pyStr] using h

/-- C8 counterexample: on a 401 response the line printed to standard
error is "Error: Authentication failed - check your API key", which is not
exactly the claimed string "Authentication failed - check your API key"
(the fixed message carries the "Error: " prefix). -/
theorem c8_line_not_exact :
    api_request_status 401 Json.null
      = ApiOutcome.fatal "Error: Authentication failed - check your API key" 1
    ∧ "Error: Authentication failed - check your API key"
      ≠ "Authentication failed - check your API key" := by
  exact ⟨rfl, by decide⟩

/-- C8 amended: a response with status 404, 401 or 403 is immediately
fatal with exit code 1 and a fixed one-line standard-error message (for
401 the line "Error: Authentication failed - check your API key", i.e. the
fixed message prefixed by "Error: "), without returning the body; any
other status has its decoded JSON body returned unconditionally. -/
theorem c8_status_mapping (status : Nat) (decoded : Json) :
    (status = 404 → api_request_status status decoded
        = ApiOutcome.fatal "Error: Not found" 1)
    ∧ (status = 401 → api_request_status status decoded
        = ApiOutcome.fatal "Error: Authentication failed - check your API key" 1)
    ∧ (status = 403 → api_request_status status decoded
        = ApiOutcome.fatal "Error: Permission denied" 1)
    ∧ (status ≠ 404 → status ≠ 401 → status ≠ 403 →
        api_request_status status decoded = ApiOutcome.body decoded) := by
  refine ⟨?_, ?_, ?_, ?_⟩
  · intro h
    rw [api_request_status, if_pos h]
  · intro h
    rw [api_request_status, if_neg (by omega), if_pos h]
  · intro h
    rw [api_request_status, if_neg (by omega), if_neg (by omega), if_pos h]
  · intro h1 h2 h3
    rw [api_request_status, if_neg h1, if_neg h2, if_neg h3]

/-- Witness for C8: a 401 response is fatal with the fixed line, and a 200
response returns its body. -/
theorem c8_status_mapping_witness :
    api_request_status 401 Json.null
      = ApiOutcome.fatal "Error: Authentication failed - check your API key" 1
    ∧ api_request_status 200 (Json.str "ok") = ApiOutcome.body (Json.str "ok") := by
  exact ⟨(c8_status_mapping 401 Json.null).2.1 rfl,
    (c8_status_mapping 200 (Json.str "ok")).2.2.2 (by decide) (by decide) (by decide)⟩

/-- Helper: the normalizer pattern `(x or {}).get(key, dflt)` yields the
default whenever `x` is an object without the key. -/
theorem normalizer_default (fields : List (String × Json)) (key dflt : String)
    (h : lookupField fields key = none) :
    pyStr (pyGetD (pyOr (Json.obj fields) (Json.obj [])) key (Json.str dflt))
      = dflt := by
  rw [pyOr]
  by_cases ht : truthy (Json.obj fields) = true
  · rw [if_pos ht]
    simp [pyGetD, pyGet, h, pyStr]
  · rw [if_neg ht]
    rfl

/-- C7: a post whose author object is absent, null, or lacks a username
field renders its author as "anonymous", and an absent or null submolt
renders as "general"; the author name of a comment is looked up under the key
`name` (not `username`, unlike posts), defaulting to "anonymous" when
absent. -/
theorem c7_defaults (p c : Json) (afields cfields : List (String × Json)) :
    (pyGet p "author" = none → author_name p = "anonymous")
    ∧ (pyGet p "author" = some Json.null → author_name p = "anonymous")
    ∧ (pyGet p "author" = some (Json.obj afields) →
        lookupField afields "username" = none → author_name p = "anonymous")
    ∧ (pyGet p "submolt" = none → submolt_name p = "general")
    ∧ (pyGet p "submolt" = some Json.null → submolt_name p = "general")
    ∧ (pyGet c "author" = none → comment_author_name c = "anonymous")
    ∧ (pyGet c "author" = some (Json.obj cfields) →
        lookupField cfields "name" = none → comment_author_name c = "anonymous")
    ∧ comment_author_name
        (Json.obj [("author", Json.obj [("username", Json.str "u")])]) = "anonymous"
    ∧ comment_author_name
        (Json.obj [("author", Json.obj [("name", Json.str "N")])]) = "N"
    ∧ author_name
        (Json.obj [("author", Json.obj [("username", Json.str "u")])]) = "u" := by
  refine ⟨?_, ?_, ?_, ?_, ?_, ?_, ?_, rfl, rfl, rfl⟩
  · intro h
    have hd : pyGetD p "author" (Json.obj []) = Json.obj [] := by rw [pyGetD, h]
    rw [author_name, hd]
    rfl
  · intro h
    have hd : pyGetD p "author" (Json.obj []) = Json.null := by rw [pyGetD, h]
    rw [author_name, hd]
    rfl
  · intro h1 h2
    have hd : pyGetD p "author" (Json.obj []) = Json.obj afields := by
      rw [pyGetD, h1]
    rw [author_name, hd]
    exact normalizer_default afields "username" "anonymous" h2
  · intro h
    have hd : pyGetD p "submolt" (Json.obj []) = Json.obj [] := by rw [pyGetD, h]
    rw [submolt_name, hd]
    rfl
  · intro h
    have hd : pyGetD p "submolt" (Json.obj []) = Json.null := by rw [pyGetD, h]
    rw [submolt_name, hd]
    rfl
  · intro h
    have hd : pyGetD c "author" (Json.obj []) = Json.obj [] := by rw [pyGetD, h]
    rw [comment_author_name, hd]
    rfl
  · intro h1 h2
    have hd : pyGetD c "author" (Json.obj []) = Json.obj cfields := by
      rw [pyGetD, h1]
    rw [comment_author_name, hd]
    exact normalizer_default cfields "name" "anonymous" h2

/-- Witness for C7 at concrete posts and comments. -/
theorem c7_defaults_witness :
    author_name (Json.obj []) = "anonymous"
    ∧ submolt_name (Json.obj [("submolt", Json.null)]) = "general"
    ∧ comment_author_name (Json.obj [("author", Json.obj [("id", Json.str "7")])])
        = "anonymous" := by
  refine ⟨(c7_defaults (Json.obj []) (Json.obj []) [] []).1 rfl,
    (c7_defaults (Json.obj [("submolt", Json.null)]) (Json.obj []) [] []).2.2.2.2.1 rfl,
    (c7_defaults (Json.obj [])
      (Json.obj [("author", Json.obj [("id", Json.str "7")])])
      [] [("id", Json.str "7")]).2.2.2.2.2.2.1 rfl rfl⟩

/-- C10: a post object lacking a `title` field renders the literal title
"Untitled" in place of the missing title, both in the post block printed
by feed and in the header printed by post. -/
theorem c10_untitled (dumps : Json → String) (ft : String → Option Int) (now : Int)
    (p : Json) (h : pyGet p "title" = none) :
    (feed_render dumps ft now (Json.obj [("posts", Json.arr [p])]) false).head?
      = some "\nUntitled"
    ∧ (truthy p = true →
        (post_render dumps ft now (Json.obj [("post", p)]) false).head?
          = some "\nUntitled") := by
  have htitle : pyGetD p "title" (Json.str "Untitled") = Json.str "Untitled" := by
    rw [pyGetD, h]
  have hposts : pyGetD (Json.obj [("posts", Json.arr [p])]) "posts" (Json.arr [])
      = Json.arr [p] := rfl
  have hpost : pyGetD (Json.obj [("post", p)]) "post" (Json.obj []) = p := rfl
  constructor
  · simp [feed_render, hposts, htitle, truthy, asArr, pyStr]
  · intro hp
    simp [post_render, hpost, hp, htitle, pyStr]

/-- Witness for C10: a post carrying only an id renders "Untitled". -/
theorem c10_untitled_witness :
    (feed_render (fun _ => "") (fun _ => none) 0
        (Json.obj [("posts", Json.arr [Json.obj [("id", Json.str "1")]])]) false).head?
      = some "\nUntitled"
    ∧ (post_render (fun _ => "") (fun _ => none) 0
        (Json.obj [("post", Json.obj [("id", Json.str "1")])]) false).head?
      = some "\nUntitled" := by
  exact ⟨(c10_untitled (fun _ => "") (fun _ => none) 0
      (Json.obj [("id", Json.str "1")]) rfl).1,
    (c10_untitled (fun _ => "") (fun _ => none) 0
      (Json.obj [("id", Json.str "1")]) rfl).2 rfl⟩

/-- C5: the comment tree renderer prints, for each comment in
server-supplied order, the header line
"indent + author_name (signed score) relative_time" followed by
"indent + two spaces + content", and recurses into non-empty replies at
indent+1 before moving to the next sibling (pre-order depth-first); in
particular the tree [content "a" with one reply of content "b"] renders
"a" at indent 0 and "b" at indent 1, in that order. -/
theorem c5_print_comments (ft : String → Option Int) (now : Int)
    (c : Json) (rest : List Json) (indent : Nat) :
    print_comments ft now (c :: rest) indent =
      [strMul "  " indent ++ comment_author_name c ++ " (" ++ plusFmt (score c) ++ ") "
          ++ format_time ft now (asCreatedAt (pyGet c "created_at")),
       strMul "  " indent ++ "  " ++ pyStr (pyGetD c "content" (Json.str ""))]
      ++ (if truthy (pyGetD c "replies" (Json.arr [])) then
            print_comments ft now (asArr (pyGetD c "replies" (Json.arr []))) (indent + 1)
          else [])
      ++ print_comments ft now rest indent
    ∧ print_comments ft now
        [Json.obj [("content", Json.str "a"),
          ("replies", Json.arr [Json.obj [("content", Json.str "b"),
            ("replies", Json.arr [])]])]] 0
      = ["anonymous (+0) unknown", "  a",
         "  anonymous (+0) unknown", "    b"] := by
  constructor
  · simp only [print_comments]
  · simp [print_comments, comment_author_name, pyGetD, pyGet, lookupField, pyOr,
      truthy, score, asInt, plusFmt, asCreatedAt, format_time, strMul, asArr, pyStr]
    decide

/-- C1: the cli group registers no vote or submolt commands: none of
upvote, downvote, upvote-comment, downvote-comment or submolts is among
the registered subcommands, although the test suite of the repository
invokes all five. -/
theorem c1_vote_submolt_commands_missing :
    "upvote" ∉ cliCommands
    ∧ "downvote" ∉ cliCommands
    ∧ "upvote-comment" ∉ cliCommands
    ∧ "downvote-comment" ∉ cliCommands
    ∧ "submolts" ∉ cliCommands := by
  refine ⟨?_, ?_, ?_, ?_, ?_⟩ <;> decide

/-- C2 counterexample: the `create` command has no raw-JSON flag (nor do
`delete` and `comment`), so not every command of the dispatcher supports a
raw-JSON output mode. -/
theorem c2_no_json_flag_on_create :
    "--json" ∉ create_option_names
    ∧ "--json" ∉ delete_option_names
    ∧ "--json" ∉ comment_option_names := by
  refine ⟨?_, ?_, ?_⟩ <;> decide

/-- C2 amended: the read commands feed, post and user each offer a --json
flag, and with the flag set print exactly the pretty-printed decoded
response and no formatted text; create, delete and comment offer no such
flag. -/
theorem c2_raw_json_mode (dumps : Json → String) (ft : String → Option Int)
    (now : Int) (data : Json) :
    feed_render dumps ft now data true = [dumps data]
    ∧ post_render dumps ft now data true = [dumps data]
    ∧ user_render dumps ft now data true = [dumps data]
    ∧ "--json" ∈ feed_option_names
    ∧ "--json" ∈ post_option_names
    ∧ "--json" ∈ user_option_names
    ∧ "--json" ∉ create_option_names
    ∧ "--json" ∉ delete_option_names
    ∧ "--json" ∉ comment_option_names := by
  refine ⟨rfl, rfl, rfl, ?_, ?_, ?_, ?_, ?_, ?_⟩ <;> decide

/-- C3: the --sort choices of the feed command are hot, new and top with
default hot, its --limit defaults to 20, the GET /posts query carries
exactly the sort and limit parameters and never a submolt parameter, and
no --submolt option exists, although the test suite of the repository
passes one. -/
theorem c3_feed_options (sort : String) (limit : Int) :
    feed_sort_choices = ["hot", "new", "top"]
    ∧ feed_default_sort = "hot"
    ∧ feed_default_limit = 20
    ∧ "--submolt" ∉ feed_option_names
    ∧ lookupField (feed_params sort limit) "submolt" = none
    ∧ lookupField (feed_params sort limit) "sort" = some (Json.str sort)
    ∧ lookupField (feed_params sort limit) "limit" = some (Json.num limit) := by
  refine ⟨rfl, rfl, rfl, by decide, rfl, rfl, rfl⟩
